import Mathlib

/-!
# Verification of DataProbePostProcessing (Nalu)

A shallow embedding of `src/src/DataProbePostProcessing.C` and proofs about
its probe-partitioning, configuration loading, geometry placement, periodic
sampling and initialization behaviour.

Machine integers from the source (`int`, `size_t`) are modelled as `Nat`/`Int`
(all values involved stay small and non-negative in the code paths of
interest); `double` arithmetic is modelled exactly over `ℚ`.
-/

namespace DataProbe

/-! ## Ownership partitioner (load, lines 132-139)

From the source:
```
const int numProcs = NaluEnv::self().parallel_size();
const int probePerProc = numProcs > numProbes ? 1 : numProbes / numProcs;
...
probeInfo->processorId_[ilos] = (ilos + probePerProc)/probePerProc - 1;
```
-/

/-- `probePerProc = numProcs > numProbes ? 1 : numProbes / numProcs`
(integer division, both quantities non-negative). -/
def probePerProc (numProcs numProbes : ℕ) : ℕ :=
  if numProcs > numProbes then 1 else numProbes / numProcs

/-- `owningRank(i) = ((i + probePerProc) / probePerProc) - 1`, the processor
id assigned to probe index `i` by `DataProbePostProcessing::load`. -/
def owningRank (numProcs numProbes i : ℕ) : ℕ :=
  (i + probePerProc numProcs numProbes) / probePerProc numProcs numProbes - 1

lemma probePerProc_pos (numProcs numProbes : ℕ) (h : 0 < numProcs) :
    0 < probePerProc numProcs numProbes := by
  unfold probePerProc
  split
  · exact Nat.one_pos
  · exact Nat.div_pos (Nat.le_of_not_lt (by omega)) h

/-- The formula `((i + p)/p) - 1` collapses to plain integer division `i / p`. -/
lemma owningRank_eq_div (numProcs numProbes i : ℕ) (h : 0 < numProcs) :
    owningRank numProcs numProbes i = i / probePerProc numProcs numProbes := by
  unfold owningRank
  have hp := probePerProc_pos numProcs numProbes h
  rw [Nat.add_div_right _ hp, Nat.add_sub_cancel]

/-! ## Configuration model

`YAML::Node::FindValue(key)` returns null for an absent key; each lookup the
code performs through it is therefore an `Option`. -/

/-- Nalu `Coordinates` (the target type of
`*tipCoord >> probeInfo->tipCoordinates_[ilos]`), a 3-component point. -/
structure Coordinates where
  x : ℚ
  y : ℚ
  z : ℚ
deriving DecidableEq

/-- `from_target_part`: either a single scalar or a sequence of region names
(load, lines 99-109). -/
inductive YFromTarget where
  | scalar (s : String)
  | seq (ss : List String)
deriving DecidableEq

/-- One entry of the `line_of_site_specifications` sequence; every key may be
absent. -/
structure YLosEntry where
  name : Option String
  numberOfPoints : Option ℤ
  tipCoordinates : Option Coordinates
  tailCoordinates : Option Coordinates
deriving DecidableEq

/-- One entry of the `output_variables` sequence. -/
structure YOutputEntry where
  fieldName : Option String
  fieldSize : Option ℤ
deriving DecidableEq

/-- One entry of the `specifications` sequence. -/
structure YSpecEntry where
  name : Option String
  fromTargetPart : YFromTarget
  lineOfSiteSpecifications : Option (List YLosEntry)
  outputVariables : Option (List YOutputEntry)
deriving DecidableEq

/-- The document as seen by `load`: an optional `data_probes` node holding an
optional `specifications` sequence.

`expect_sequence` comes from NaluParsing, which is not among these source
files; modelled from the spec: it locates the named child sequence and
yields null when the key is absent, after which `load`'s own error handling
runs ("require a line_of_site_specifications sequence (any other probe kind
is rejected as unsupported)"). -/
structure YNode where
  dataProbes : Option (Option (List YSpecEntry))
deriving DecidableEq

/-! ## In-memory spec model -/

/-- `DataProbeInfo`: per-probe parallel arrays. Mesh-node handles
(`nodeVector_`) are modelled as entity ids (`ℕ`); the `part_` array of mesh
part pointers is represented by the part names already stored in
`partName`. -/
structure DataProbeInfo where
  isLineOfSite : Bool
  numProbes : ℕ
  partName : List String
  processorId : List ℕ
  numPoints : List ℤ
  tipCoordinates : List Coordinates
  tailCoordinates : List Coordinates
  nodeVector : List (List ℕ)
  fieldInfo : List (String × ℤ)
deriving DecidableEq

/-- A freshly default-constructed `DataProbeInfo` (line 88). -/
def emptyProbeInfo : DataProbeInfo := ⟨false, 0, [], [], [], [], [], [], []⟩

/-- `DataProbeSpecInfo`: one specification entry's data. -/
structure DataProbeSpecInfo where
  xferName : String
  fromTargetNames : List String
  dataProbeInfo : List DataProbeInfo
deriving DecidableEq

/-- A fresh `DataProbeSpecInfo` right after lines 85-89: its (still empty)
`DataProbeInfo` is already pushed into it. -/
def emptySpecInfo : DataProbeSpecInfo := ⟨"", [], [emptyProbeInfo]⟩

/-! ## The loader (`DataProbePostProcessing::load`, lines 69-205) -/

/-- Body of the `ilos` loop (lines 135-169): store the processor id, then
read `name`, `number_of_points`, `tip_coordinates`, `tail_coordinates` in
that order, throwing at the first missing key. Returns the (possibly
partially) mutated `DataProbeInfo` together with the thrown error, if any. -/
def parseLos (numProcs : ℕ) (ilos : ℕ) (y : YLosEntry) (info : DataProbeInfo) :
    DataProbeInfo × Option String :=
  let info := { info with
    processorId := info.processorId.set ilos (owningRank numProcs info.numProbes ilos) }
  match y.name with
  | none => (info, some "DataProbePostProcessing: lacking the name")
  | some nm =>
    let info := { info with partName := info.partName.set ilos nm }
    match y.numberOfPoints with
    | none => (info, some "DataProbePostProcessing: lacking number of points")
    | some np =>
      let info := { info with numPoints := info.numPoints.set ilos np }
      match y.tipCoordinates with
      | none => (info, some "DataProbePostProcessing: lacking tip coordinates")
      | some tip =>
        let info := { info with tipCoordinates := info.tipCoordinates.set ilos tip }
        match y.tailCoordinates with
        | none => (info, some "DataProbePostProcessing: lacking tail coordinates")
        | some tl =>
          ({ info with tailCoordinates := info.tailCoordinates.set ilos tl }, none)

/-- The `ilos` loop (lines 135-169), stopping at the first thrown error. -/
def parseLosLoop (numProcs : ℕ) (ilos : ℕ) (ys : List YLosEntry)
    (info : DataProbeInfo) : DataProbeInfo × Option String :=
  match ys with
  | [] => (info, none)
  | y :: rest =>
    let r := parseLos numProcs ilos y info
    match r.2 with
    | none => parseLosLoop numProcs (ilos + 1) rest r.1
    | some e => (r.1, some e)

/-- The `output_variables` loop (lines 176-201): each entry must carry
`field_name` and `field_size`; the stored name gets the `_probe` suffix. -/
def parseOutputs (ys : List YOutputEntry) (acc : List (String × ℤ)) :
    List (String × ℤ) × Option String :=
  match ys with
  | [] => (acc, none)
  | y :: rest =>
    match y.fieldName with
    | none => (acc, some "DataProbePostProcessing::load() Sorry, field name must be provided")
    | some fn =>
      match y.fieldSize with
      | none => (acc, some "DataProbePostProcessing::load() Sorry, field size must be provided")
      | some fs => parseOutputs rest (acc ++ [(fn ++ "_probe", fs)])

/-- Lines 99-109: a scalar `from_target_part` becomes a one-element list. -/
def fromTargetList : YFromTarget → List String
  | .scalar s => [s]
  | .seq ss => ss

/-- The `DataProbeInfo` right after the `resize` calls of lines 119-129 for
a probe set of `n` line-of-site entries: every parallel array is resized to
`n` with the default value of its element type. -/
def resizedProbeInfo (n : ℕ) : DataProbeInfo :=
  { isLineOfSite := true
    numProbes := n
    partName := List.replicate n ""
    processorId := List.replicate n 0
    numPoints := List.replicate n 0
    tipCoordinates := List.replicate n ⟨0, 0, 0⟩
    tailCoordinates := List.replicate n ⟨0, 0, 0⟩
    nodeVector := List.replicate n []
    fieldInfo := [] }

/-- One iteration of the `ispec` loop (lines 82-202): the fresh
`DataProbeSpecInfo` (whose `DataProbeInfo` is already pushed) is mutated in
place; the result is its state when the iteration ends, normally or by a
thrown error. -/
def parseSpecEntry (numProcs : ℕ) (y : YSpecEntry) :
    DataProbeSpecInfo × Option String :=
  match y.name with
  | none => (emptySpecInfo, some "DataProbePostProcessing: no name provided")
  | some nm =>
    let spec := { emptySpecInfo with
                    xferName := nm
                    fromTargetNames := fromTargetList y.fromTargetPart }
    match y.lineOfSiteSpecifications with
    | none =>
      (spec, some "DataProbePostProcessing: only supports line_of_site_specifications")
    | some losList =>
      let r := parseLosLoop numProcs 0 losList (resizedProbeInfo losList.length)
      match r.2 with
      | some e => ({ spec with dataProbeInfo := [r.1] }, some e)
      | none =>
        match y.outputVariables with
        | none => ({ spec with dataProbeInfo := [r.1] }, none)
        | some outs =>
          let ro := parseOutputs outs []
          ({ spec with dataProbeInfo := [{ r.1 with fieldInfo := ro.1 }] }, ro.2)

/-- The mutable state of a `DataProbePostProcessing` object together with
the mesh metadata reachable through `realm_` (`meshParts` records the parts
declared on the mesh by `setup`; `load` never touches the mesh). -/
structure Module where
  outputFreq : ℤ
  dataProbeSpecInfo : List DataProbeSpecInfo
  meshParts : List String
deriving DecidableEq

/-- The `ispec` loop of `load` (lines 82-202). Each iteration pushes the
fresh spec object into the registry (lines 85-86) *before* parsing it, so a
thrown error leaves the partially-configured entry behind. -/
def loadLoop (numProcs : ℕ) (registry : List DataProbeSpecInfo)
    (ys : List YSpecEntry) : List DataProbeSpecInfo × Option String :=
  match ys with
  | [] => (registry, none)
  | y :: rest =>
    let r := parseSpecEntry numProcs y
    match r.2 with
    | some e => (registry ++ [r.1], some e)
    | none => loadLoop numProcs (registry ++ [r.1]) rest

/-- `DataProbePostProcessing::load` (lines 69-205): find `data_probes`, then
its `specifications` sequence, and run the `ispec` loop. -/
def load (numProcs : ℕ) (m : Module) (y : YNode) : Module × Option String :=
  match y.dataProbes with
  | none => (m, none)
  | some none => (m, none)
  | some (some specs) =>
    let r := loadLoop numProcs m.dataProbeSpecInfo specs
    ({ m with dataProbeSpecInfo := r.1 }, r.2)

/-- The constructor (lines 48-56): hard-code `outputFreq_ = 10`, then call
`load`. -/
def construct (numProcs : ℕ) (y : YNode) : Module × Option String :=
  load numProcs { outputFreq := 10, dataProbeSpecInfo := [], meshParts := [] } y

/-! ## Geometry placer (`initialize`, lines 336-360)

`double` arithmetic is modelled exactly over `ℚ`. -/

/-- Lines 338-348: build the dense coordinate vector of size `nDim` from a
`Coordinates` record; components 0 and 1 are always written, component 2
only when `nDim > 2`. -/
def coordVec (nDim : ℕ) (c : Coordinates) : List ℚ :=
  let v := ((List.replicate nDim (0 : ℚ)).set 0 c.x).set 1 c.y
  if nDim > 2 then v.set 2 c.z else v

/-- Lines 350-352: `dx[i] = (tipC[i] - tailC[i]) / (numPoints - 1)`. -/
def dxVec (nDim : ℕ) (tip tl : Coordinates) (numPoints : ℤ) : List ℚ :=
  (List.range nDim).map (fun i =>
    ((coordVec nDim tip).getD i 0 - (coordVec nDim tl).getD i 0)
      / ((numPoints - 1 : ℤ) : ℚ))

/-- Lines 355-360: the coordinate written to node `j`:
`coords[i] = tailC[i] + j * dx[i]`. -/
def nodeCoord (nDim : ℕ) (tip tl : Coordinates) (numPoints : ℤ) (j : ℕ) :
    List ℚ :=
  (List.range nDim).map (fun i =>
    (coordVec nDim tl).getD i 0 + (j : ℚ) * (dxVec nDim tip tl numPoints).getD i 0)

/-! ## Periodic sampler (`provide_average`, lines 440-496) -/

/-- Lines 481-487: starting from `meanValue(fieldSize, 0.0)`, accumulate
`theF[ifs]` over the probe's node vector, component-wise. -/
def componentSum (fieldSize : ℕ) (nodes : List (List ℚ)) : List ℚ :=
  (List.range fieldSize).map (fun ifs => (nodes.map (fun nv => nv.getD ifs 0)).sum)

/-- Line 490: the printed value is `meanValue[ifs] / numPoints` — the divisor
the code uses is the configured `numPoints_[inp]`, whatever the length of
the node vector is on this rank. -/
def provideAverageDivisor (numPoints : ℤ) (_nodes : List (List ℚ)) : ℤ :=
  numPoints

/-- The per-field values reported by `provide_average` for one probe:
component-wise node sums divided by `numPoints`. -/
def provideAverageField (fieldSize : ℕ) (numPoints : ℤ) (nodes : List (List ℚ)) :
    List ℚ :=
  (componentSum fieldSize nodes).map
    (fun s => s / ((provideAverageDivisor numPoints nodes : ℤ) : ℚ))

/-! ## Periodic trigger (`execute`, lines 421-435) -/

/-- Line 427: `timeStepCount % outputFreq_ == 0`; C++ `%` on `int` is
truncated-division remainder, `Int.tmod`. -/
def isOutputStep (outputFreq timeStepCount : ℤ) : Bool :=
  Int.tmod timeStepCount outputFreq == 0

/-- `DataProbePostProcessing::execute` (lines 421-435): on output steps call
`provide_average`, otherwise do nothing. The returned flag records whether
sampling ran; the module state is returned unchanged either way. -/
def execute (m : Module) (timeStepCount : ℤ) : Module × Bool :=
  (m, isOutputStep m.outputFreq timeStepCount)

/-! ## Entity creation (`initialize`, lines 285-315) -/

/-- One probe's slice of `initialize`: every rank calls
`generate_new_ids(NODE_RANK, numPoints, ...)` (line 294), and only the rank
equal to `processorId` resizes and fills the node vector (lines 300-311).
The ids handed out by the generator are abstracted as `0, 1, ...`. -/
def initializeProbe (rank : ℕ) (numPoints : ℤ) (processorId : ℕ) :
    ℤ × List ℕ :=
  (numPoints, if processorId == rank then List.range numPoints.toNat else [])

/-- The per-probe trace of `initialize` on one rank, over the parallel
arrays of a `DataProbeInfo`: first components are the arguments of the
successive `generate_new_ids` calls, second components the node vectors
stored on this rank. -/
def initializeTrace (rank : ℕ) (info : DataProbeInfo) : List (ℤ × List ℕ) :=
  (info.numPoints.zip info.processorId).map
    (fun p => initializeProbe rank p.1 p.2)

/-! ## Claims about the ownership partitioner (C1, C3) -/

/-- Claim C1, counterexample: with `numProbes = 5` and `numRanks = 2` the
formula assigns probe index 4 the owning rank 2, which is not in `[0, 2)` —
the claimed range property fails. -/
theorem c1_owningRank_range_counterexample :
    owningRank 2 5 4 = 2 ∧ ¬ owningRank 2 5 4 < 2 := by decide

/-- Claim C1 (amended): for `numRanks > 0` the owning rank is monotonically
non-decreasing in the probe index, and the range property
`owningRank(i) ∈ [0, numRanks)` for all `i < numProbes` holds whenever
`numRanks > numProbes` or `numRanks` divides `numProbes` (by
`c1_owningRank_range_counterexample` it can fail otherwise). -/
theorem c1_owningRank_monotone_and_range (numProbes numRanks : ℕ)
    (hr : 0 < numRanks) :
    (∀ i j, i ≤ j →
      owningRank numRanks numProbes i ≤ owningRank numRanks numProbes j) ∧
    ((numProbes < numRanks ∨ numRanks ∣ numProbes) →
      ∀ i, i < numProbes → owningRank numRanks numProbes i < numRanks) := by
  constructor
  · intro i j hij
    rw [owningRank_eq_div _ _ _ hr, owningRank_eq_div _ _ _ hr]
    exact Nat.div_le_div_right hij
  · rintro h i hi
    rw [owningRank_eq_div _ _ _ hr]
    unfold probePerProc
    by_cases hgt : numRanks > numProbes
    · simp only [hgt, if_pos, Nat.div_one]
      omega
    · have hle : numRanks ≤ numProbes := Nat.le_of_not_lt hgt
      have hdvd : numRanks ∣ numProbes := by
        rcases h with h | h
        · omega
        · exact h
      simp only [hgt, if_neg, if_false]
      have hp : 0 < numProbes / numRanks := Nat.div_pos hle hr
      rw [Nat.div_lt_iff_lt_mul hp]
      have hcancel : numRanks * (numProbes / numRanks) = numProbes :=
        Nat.mul_div_cancel' hdvd
      omega

/-- Witness for `c1_owningRank_monotone_and_range` at `numProbes = 4`,
`numRanks = 2` (the spec's own scenario): monotone step from probe 2 to 3
and rank of probe 3 inside `[0, 2)`. -/
theorem c1_owningRank_monotone_and_range_witness :
    owningRank 2 4 2 ≤ owningRank 2 4 3 ∧ owningRank 2 4 3 < 2 :=
  ⟨(c1_owningRank_monotone_and_range 4 2 (by decide)).1 2 3 (by decide),
   (c1_owningRank_monotone_and_range 4 2 (by decide)).2
      (Or.inr (by decide)) 3 (by decide)⟩

/-- Claim C3, counterexample: with `numProbes = 2 < numRanks = 3` the
partitioner assigns probe 1 to rank 1, not to rank 0 as claimed. -/
theorem c3_partition_counterexample :
    2 < 3 ∧ owningRank 3 2 1 ≠ 0 := by decide

/-- Claim C3 (amended): when `numProbes < numRanks` every probe index `i`
maps to owning rank `i` (its own index, not rank 0); and when
`numRanks ≤ numProbes` with `numRanks` not dividing `numProbes`, the last
probe is assigned a rank `≥ numRanks` — past the end of the valid rank
range, not folded into the last valid rank. -/
theorem c3_partition_small_and_trailing (numProbes numRanks : ℕ)
    (hr : 0 < numRanks) :
    (numProbes < numRanks →
      ∀ i, i < numProbes → owningRank numRanks numProbes i = i) ∧
    (numRanks ≤ numProbes → ¬ numRanks ∣ numProbes →
      numRanks ≤ owningRank numRanks numProbes (numProbes - 1)) := by
  constructor
  · intro hgt i _
    rw [owningRank_eq_div _ _ _ hr]
    unfold probePerProc
    simp only [gt_iff_lt, hgt, if_pos, Nat.div_one]
  · intro hle hndvd
    rw [owningRank_eq_div _ _ _ hr]
    unfold probePerProc
    have hgt : ¬ numRanks > numProbes := by omega
    simp only [gt_iff_lt, hgt, if_neg, if_false]
    have hp : 0 < numProbes / numRanks := Nat.div_pos hle hr
    rw [Nat.le_div_iff_mul_le hp]
    have hmod : numProbes % numRanks ≠ 0 :=
      fun hz => hndvd (Nat.dvd_iff_mod_eq_zero.mpr hz)
    have hdm := Nat.div_add_mod numProbes numRanks
    omega

/-- Witness for `c3_partition_small_and_trailing`: at `numProbes = 2`,
`numRanks = 3` probe 1 gets rank 1; at `numProbes = 5`, `numRanks = 2` the
last probe gets a rank `≥ 2`. -/
theorem c3_partition_small_and_trailing_witness :
    owningRank 3 2 1 = 1 ∧ 2 ≤ owningRank 2 5 (5 - 1) :=
  ⟨(c3_partition_small_and_trailing 2 3 (by decide)).1 (by decide) 1 (by decide),
   (c3_partition_small_and_trailing 5 2 (by decide)).2 (by decide) (by decide)⟩

/-! ## Claims about the periodic trigger (C7, C10) -/

lemma tmod_eq_zero_iff_emod_eq_zero (n f : ℤ) :
    Int.tmod n f = 0 ↔ n % f = 0 := by
  rw [← Int.dvd_iff_tmod_eq_zero, Int.dvd_iff_emod_eq_zero]

/-- Claim C7: on every step, `execute` samples if and only if the step count
is 0 modulo `outputFreq_`, and leaves the module state untouched either way;
in particular with `outputFreq_ = 10` it samples exactly at step counts that
are multiples of 10 (0, 10, 20, ...) and is idle at the others. -/
theorem c7_execute_samples_iff (m : Module) (n : ℤ) :
    ((execute m n).2 = true ↔ n % m.outputFreq = 0) ∧
    (execute m n).1 = m ∧
    ((execute ⟨10, [], []⟩ n).2 = true ↔ n % 10 = 0) := by
  refine ⟨?_, rfl, ?_⟩
  · show (Int.tmod n m.outputFreq == 0) = true ↔ n % m.outputFreq = 0
    rw [beq_iff_eq, tmod_eq_zero_iff_emod_eq_zero]
  · show (Int.tmod n 10 == 0) = true ↔ n % 10 = 0
    rw [beq_iff_eq, tmod_eq_zero_iff_emod_eq_zero]

/-- Witness for `c7_execute_samples_iff` at step count 20 on a module with
the hard-coded output frequency 10. -/
theorem c7_execute_samples_iff_witness :
    ((execute ⟨10, [], []⟩ 20).2 = true ↔
        (20 : ℤ) % (⟨10, [], []⟩ : Module).outputFreq = 0) ∧
    (execute ⟨10, [], []⟩ 20).1 = ⟨10, [], []⟩ ∧
    ((execute ⟨10, [], []⟩ 20).2 = true ↔ (20 : ℤ) % 10 = 0) :=
  c7_execute_samples_iff ⟨10, [], []⟩ 20

/-- Claim C10: for every configuration document the constructed module has
`outputFreq_ = 10`; `load` reads no frequency from the configuration and
leaves the stored frequency unchanged, and `execute` leaves the whole state
unchanged. -/
theorem c10_outputFreq_constant (numProcs : ℕ) (y : YNode) (m : Module)
    (n : ℤ) :
    (construct numProcs y).1.outputFreq = 10 ∧
    (load numProcs m y).1.outputFreq = m.outputFreq ∧
    (execute m n).1 = m := by
  have hload : ∀ m' : Module, (load numProcs m' y).1.outputFreq = m'.outputFreq := by
    intro m'
    unfold load
    rcases y with ⟨_ | _ | specs⟩ <;> rfl
  exact ⟨hload _, hload _, rfl⟩

/-- Witness for `c10_outputFreq_constant` on the empty document. -/
theorem c10_outputFreq_constant_witness :
    (construct 1 ⟨none⟩).1.outputFreq = 10 ∧
    (load 1 ⟨10, [], []⟩ ⟨none⟩).1.outputFreq =
      (⟨10, [], []⟩ : Module).outputFreq ∧
    (execute ⟨10, [], []⟩ 3).1 = ⟨10, [], []⟩ :=
  c10_outputFreq_constant 1 ⟨none⟩ ⟨10, [], []⟩ 3

/-! ## Claims about the sampler (C2) -/

/-- Claim C2, counterexample: on a rank that owns no nodes of a probe
configured with `numPoints = 2` — the state `provide_average` reaches on
every non-owning rank — the node count is 0, yet the divisor the code uses
is 2, not the node count, and the reported value is a well-defined 0 per
component rather than a division by zero. -/
theorem c2_sampler_counterexample :
    ([] : List (List ℚ)).length = 0 ∧
    provideAverageDivisor 2 ([] : List (List ℚ)) ≠
      (([] : List (List ℚ)).length : ℤ) ∧
    provideAverageDivisor 2 ([] : List (List ℚ)) ≠ 0 ∧
    provideAverageField 1 2 ([] : List (List ℚ)) = [0] := by
  refine ⟨rfl, by decide, by decide, ?_⟩
  simp [provideAverageField, componentSum, provideAverageDivisor]

/-- Claim C2 (amended): per component the sampler reports the node sum
divided by the configured `numPoints` — the divisor is `numPoints`, not the
node count. On the owning rank, where the node vector has exactly
`numPoints` entries, this coincides with the mean over the owned nodes; with
zero owned nodes every reported component is 0, and the division is by zero
only when `numPoints` itself is 0. -/
theorem c2_sampler_mean (fieldSize : ℕ) (numPoints : ℤ)
    (nodes : List (List ℚ)) :
    provideAverageField fieldSize numPoints nodes =
      (componentSum fieldSize nodes).map (fun s => s / ((numPoints : ℤ) : ℚ)) ∧
    ((nodes.length : ℤ) = numPoints →
      provideAverageField fieldSize numPoints nodes =
        (componentSum fieldSize nodes).map (fun s => s / (nodes.length : ℚ))) ∧
    (nodes = [] →
      provideAverageField fieldSize numPoints nodes =
        List.replicate fieldSize 0) ∧
    (numPoints ≠ 0 → provideAverageDivisor numPoints nodes ≠ 0) := by
  refine ⟨rfl, ?_, ?_, fun h => h⟩
  · intro h
    subst h
    simp [provideAverageField, provideAverageDivisor]
  · intro h
    subst h
    simp [provideAverageField, provideAverageDivisor, componentSum,
      List.map_map, Function.comp]

/-- Witness for `c2_sampler_mean`: one owned-node vector of length 3 with
`numPoints = 3` — the reported value is the mean over the node count. -/
theorem c2_sampler_mean_witness :
    provideAverageField 1 3 [[1], [2], [3]] =
      (componentSum 1 [[1], [2], [3]]).map
        (fun s => s / (([[1], [2], [3]] : List (List ℚ)).length : ℚ)) :=
  (c2_sampler_mean 1 3 [[1], [2], [3]]).2.1 (by decide)

/-! ## Claims about the geometry placer (C4) -/

lemma coordVec_two (c : Coordinates) : coordVec 2 c = [c.x, c.y] := rfl

lemma coordVec_three (c : Coordinates) : coordVec 3 c = [c.x, c.y, c.z] := rfl

lemma dxVec_two (tip tl : Coordinates) (P : ℤ) :
    dxVec 2 tip tl P =
      [(tip.x - tl.x) / ((P - 1 : ℤ) : ℚ),
       (tip.y - tl.y) / ((P - 1 : ℤ) : ℚ)] := rfl

lemma dxVec_three (tip tl : Coordinates) (P : ℤ) :
    dxVec 3 tip tl P =
      [(tip.x - tl.x) / ((P - 1 : ℤ) : ℚ),
       (tip.y - tl.y) / ((P - 1 : ℤ) : ℚ),
       (tip.z - tl.z) / ((P - 1 : ℤ) : ℚ)] := rfl

lemma nodeCoord_two (tip tl : Coordinates) (P : ℤ) (j : ℕ) :
    nodeCoord 2 tip tl P j =
      [tl.x + (j : ℚ) * ((tip.x - tl.x) / ((P - 1 : ℤ) : ℚ)),
       tl.y + (j : ℚ) * ((tip.y - tl.y) / ((P - 1 : ℤ) : ℚ))] := rfl

lemma nodeCoord_three (tip tl : Coordinates) (P : ℤ) (j : ℕ) :
    nodeCoord 3 tip tl P j =
      [tl.x + (j : ℚ) * ((tip.x - tl.x) / ((P - 1 : ℤ) : ℚ)),
       tl.y + (j : ℚ) * ((tip.y - tl.y) / ((P - 1 : ℤ) : ℚ)),
       tl.z + (j : ℚ) * ((tip.z - tl.z) / ((P - 1 : ℤ) : ℚ))] := rfl

/-- Claim C4: for `nDim ∈ {2,3}` and point count `P ≥ 2`, node `j` receives
`A + j·dx` with `dx = (T − A)/(P − 1)` component-wise (that is the
definition of `nodeCoord`); point 0 is exactly the tail, point `P − 1`
exactly the tip, consecutive points are a constant `dx` apart, and the
spec's example (tip `(0,0,1)`, tail `(0,0,0)`, `P = 3`) yields `(0,0,0)`,
`(0,0,1/2)`, `(0,0,1)`. `double` arithmetic is modelled exactly over `ℚ`. -/
theorem c4_geometry_placement (nDim : ℕ) (hd : nDim = 2 ∨ nDim = 3)
    (tip tl : Coordinates) (P : ℤ) (hP : 2 ≤ P) :
    nodeCoord nDim tip tl P 0 = coordVec nDim tl ∧
    nodeCoord nDim tip tl P (P - 1).toNat = coordVec nDim tip ∧
    (∀ j i, i < nDim →
      (nodeCoord nDim tip tl P (j + 1)).getD i 0 -
          (nodeCoord nDim tip tl P j).getD i 0 =
        (dxVec nDim tip tl P).getD i 0) ∧
    nodeCoord 3 ⟨0, 0, 1⟩ ⟨0, 0, 0⟩ 3 0 = [0, 0, 0] ∧
    nodeCoord 3 ⟨0, 0, 1⟩ ⟨0, 0, 0⟩ 3 1 = [0, 0, 1/2] ∧
    nodeCoord 3 ⟨0, 0, 1⟩ ⟨0, 0, 0⟩ 3 2 = [0, 0, 1] := by
  have h2 : (2 : ℚ) ≤ (P : ℚ) := by exact_mod_cast hP
  have hPQ : ((P : ℚ) - 1) ≠ 0 := by linarith
  have hcast : (((P - 1 : ℤ)) : ℚ) = (P : ℚ) - 1 := by push_cast; ring
  have htn : (((P - 1).toNat : ℕ) : ℚ) = (P : ℚ) - 1 := by
    have h0 : (0 : ℤ) ≤ P - 1 := by omega
    have h1 : ((P - 1).toNat : ℤ) = P - 1 := Int.toNat_of_nonneg h0
    exact_mod_cast h1
  have hex0 : nodeCoord 3 ⟨0, 0, 1⟩ ⟨0, 0, 0⟩ 3 0 = [0, 0, 0] := by
    rw [nodeCoord_three]; norm_num
  have hex1 : nodeCoord 3 ⟨0, 0, 1⟩ ⟨0, 0, 0⟩ 3 1 = [0, 0, 1/2] := by
    rw [nodeCoord_three]; norm_num
  have hex2 : nodeCoord 3 ⟨0, 0, 1⟩ ⟨0, 0, 0⟩ 3 2 = [0, 0, 1] := by
    rw [nodeCoord_three]; norm_num
  rcases hd with h | h <;> subst h
  · refine ⟨?_, ?_, ?_, hex0, hex1, hex2⟩
    · rw [nodeCoord_two, coordVec_two]; norm_num
    · rw [nodeCoord_two, coordVec_two, htn, hcast]
      rw [List.cons.injEq, List.cons.injEq]
      refine ⟨by field_simp, by field_simp, rfl⟩
    · intro j i hi
      interval_cases i <;>
        simp only [nodeCoord_two, dxVec_two, List.getD_cons_zero,
          List.getD_cons_succ] <;> push_cast <;> ring
  · refine ⟨?_, ?_, ?_, hex0, hex1, hex2⟩
    · rw [nodeCoord_three, coordVec_three]; norm_num
    · rw [nodeCoord_three, coordVec_three, htn, hcast]
      rw [List.cons.injEq, List.cons.injEq, List.cons.injEq]
      refine ⟨by field_simp, by field_simp, by field_simp, rfl⟩
    · intro j i hi
      interval_cases i <;>
        simp only [nodeCoord_three, dxVec_three, List.getD_cons_zero,
          List.getD_cons_succ] <;> push_cast <;> ring

/-- Witness for `c4_geometry_placement`: the spec's scenario, `nDim = 3`,
tip `(0,0,1)`, tail `(0,0,0)`, `P = 3` — the last point is exactly the
tip. -/
theorem c4_geometry_placement_witness :
    nodeCoord 3 ⟨0, 0, 1⟩ ⟨0, 0, 0⟩ 3 ((3 - 1 : ℤ)).toNat =
      coordVec 3 ⟨0, 0, 1⟩ :=
  (c4_geometry_placement 3 (Or.inr rfl) ⟨0, 0, 1⟩ ⟨0, 0, 0⟩ 3 (by decide)).2.1

/-! ## Claims about entity creation (C9) -/

/-- Claim C9: during `initialize`, every rank calls `generate_new_ids` once
per probe with that probe's `numPoints` — the call sequence is identical on
every rank — while only the owning rank stores node handles: on a rank
different from a probe's `processorId` the probe's node vector stays empty,
and on the owning rank it holds exactly the `numPoints` generated ids. -/
theorem c9_initialize_collective (rank rank1 : ℕ) (info : DataProbeInfo)
    (hlen : info.processorId.length = info.numPoints.length) :
    (initializeTrace rank info).map Prod.fst = info.numPoints ∧
    (initializeTrace rank info).map Prod.fst =
      (initializeTrace rank1 info).map Prod.fst ∧
    (initializeTrace rank info).length = info.numPoints.length ∧
    (∀ j, j < info.numPoints.length →
      info.processorId.getD j 0 ≠ rank →
        ((initializeTrace rank info).getD j (0, [1])).2 = []) ∧
    (∀ j, j < info.numPoints.length →
      info.processorId.getD j 0 = rank →
        ((initializeTrace rank info).getD j (0, [])).2 =
          List.range ((info.numPoints.getD j 0).toNat)) := by
  have hfst : ∀ r : ℕ, (initializeTrace r info).map Prod.fst = info.numPoints := by
    intro r
    unfold initializeTrace initializeProbe
    rw [List.map_map]
    have hcomp : (Prod.fst ∘ fun p : ℤ × ℕ =>
        (p.1, if p.2 == r then List.range p.1.toNat else [])) = Prod.fst := rfl
    rw [hcomp, List.map_fst_zip _ _ hlen.ge]
  have hzlen : (info.numPoints.zip info.processorId).length =
      info.numPoints.length := by
    rw [List.length_zip, hlen, Nat.min_self]
  have htlen : (initializeTrace rank info).length = info.numPoints.length := by
    unfold initializeTrace
    rw [List.length_map, hzlen]
  have key : ∀ (d : ℤ × List ℕ) j, j < info.numPoints.length →
      (initializeTrace rank info).getD j d =
        initializeProbe rank (info.numPoints.getD j 0)
          (info.processorId.getD j 0) := by
    intro d j hj
    have hj1 : j < (initializeTrace rank info).length := by
      rw [htlen]; exact hj
    have hjp : j < info.processorId.length := by rw [hlen]; exact hj
    rw [List.getD_eq_getElem _ _ hj1]
    simp only [initializeTrace, List.getElem_map, List.getElem_zip]
    rw [List.getD_eq_getElem _ _ hj, List.getD_eq_getElem _ _ hjp]
  refine ⟨hfst rank, (hfst rank).trans (hfst rank1).symm, htlen, ?_, ?_⟩
  · intro j hj hne
    rw [key _ j hj]
    unfold initializeProbe
    simp only [beq_iff_eq, if_neg hne]
  · intro j hj heq
    rw [key _ j hj]
    unfold initializeProbe
    simp only [beq_iff_eq, if_pos heq]

/-- Witness for `c9_initialize_collective`: two probes with point counts 2
and 3 owned by ranks 0 and 1; on rank 0 the second probe's node vector stays
empty. -/
theorem c9_initialize_collective_witness :
    ((initializeTrace 0
        ⟨true, 2, ["a", "b"], [0, 1], [2, 3],
         [⟨0, 0, 0⟩, ⟨0, 0, 0⟩], [⟨0, 0, 0⟩, ⟨0, 0, 0⟩],
         [[], []], []⟩).getD 1 (0, [1])).2 = [] :=
  (c9_initialize_collective 0 1 _ rfl).2.2.2.1 1 (by decide) (by decide)

/-! ## Helper lemmas about the loader -/

/-- `parseLos` throws exactly when one of the four required keys is
absent. -/
lemma parseLos_isSome_iff (numProcs ilos : ℕ) (y : YLosEntry)
    (info : DataProbeInfo) :
    (parseLos numProcs ilos y info).2.isSome ↔
      (y.name = none ∨ y.numberOfPoints = none ∨
       y.tipCoordinates = none ∨ y.tailCoordinates = none) := by
  rcases y with ⟨n, np, tc, td⟩
  cases n <;> cases np <;> cases tc <;> cases td <;> simp [parseLos]

/-- `parseLos` only `set`s into the parallel arrays: lengths and the other
fields are untouched, whether it throws or not. -/
lemma parseLos_preserves (numProcs ilos : ℕ) (y : YLosEntry)
    (info : DataProbeInfo) :
    (parseLos numProcs ilos y info).1.partName.length = info.partName.length ∧
    (parseLos numProcs ilos y info).1.processorId.length = info.processorId.length ∧
    (parseLos numProcs ilos y info).1.numPoints.length = info.numPoints.length ∧
    (parseLos numProcs ilos y info).1.tipCoordinates.length = info.tipCoordinates.length ∧
    (parseLos numProcs ilos y info).1.tailCoordinates.length = info.tailCoordinates.length ∧
    (parseLos numProcs ilos y info).1.numProbes = info.numProbes ∧
    (parseLos numProcs ilos y info).1.isLineOfSite = info.isLineOfSite ∧
    (parseLos numProcs ilos y info).1.nodeVector = info.nodeVector ∧
    (parseLos numProcs ilos y info).1.fieldInfo = info.fieldInfo := by
  rcases y with ⟨n, np, tc, td⟩
  cases n <;> cases np <;> cases tc <;> cases td <;>
    simp [parseLos, List.length_set]

/-- The `ilos` loop preserves array lengths and the fields it never
writes. -/
lemma parseLosLoop_preserves (numProcs : ℕ) (ys : List YLosEntry) :
    ∀ ilos info,
    (parseLosLoop numProcs ilos ys info).1.partName.length = info.partName.length ∧
    (parseLosLoop numProcs ilos ys info).1.processorId.length = info.processorId.length ∧
    (parseLosLoop numProcs ilos ys info).1.numPoints.length = info.numPoints.length ∧
    (parseLosLoop numProcs ilos ys info).1.tipCoordinates.length = info.tipCoordinates.length ∧
    (parseLosLoop numProcs ilos ys info).1.tailCoordinates.length = info.tailCoordinates.length ∧
    (parseLosLoop numProcs ilos ys info).1.numProbes = info.numProbes ∧
    (parseLosLoop numProcs ilos ys info).1.isLineOfSite = info.isLineOfSite ∧
    (parseLosLoop numProcs ilos ys info).1.nodeVector = info.nodeVector ∧
    (parseLosLoop numProcs ilos ys info).1.fieldInfo = info.fieldInfo := by
  induction ys with
  | nil => intro ilos info; exact ⟨rfl, rfl, rfl, rfl, rfl, rfl, rfl, rfl, rfl⟩
  | cons y rest ih =>
    intro ilos info
    have hstep := parseLos_preserves numProcs ilos y info
    simp only [parseLosLoop]
    rcases h : (parseLos numProcs ilos y info).2 with _ | e
    · have hrec := ih (ilos + 1) (parseLos numProcs ilos y info).1
      exact ⟨hrec.1.trans hstep.1,
        hrec.2.1.trans hstep.2.1,
        hrec.2.2.1.trans hstep.2.2.1,
        hrec.2.2.2.1.trans hstep.2.2.2.1,
        hrec.2.2.2.2.1.trans hstep.2.2.2.2.1,
        hrec.2.2.2.2.2.1.trans hstep.2.2.2.2.2.1,
        hrec.2.2.2.2.2.2.1.trans hstep.2.2.2.2.2.2.1,
        hrec.2.2.2.2.2.2.2.1.trans hstep.2.2.2.2.2.2.2.1,
        hrec.2.2.2.2.2.2.2.2.trans hstep.2.2.2.2.2.2.2.2⟩
    · exact hstep

/-- The `ilos` loop throws exactly when some entry lacks a required key. -/
lemma parseLosLoop_isSome_iff (numProcs : ℕ) (ys : List YLosEntry) :
    ∀ ilos info,
    (parseLosLoop numProcs ilos ys info).2.isSome ↔
      ∃ y ∈ ys, (y.name = none ∨ y.numberOfPoints = none ∨
        y.tipCoordinates = none ∨ y.tailCoordinates = none) := by
  induction ys with
  | nil => intro ilos info; simp [parseLosLoop]
  | cons y rest ih =>
    intro ilos info
    simp only [parseLosLoop]
    have hy := parseLos_isSome_iff numProcs ilos y info
    rcases h : (parseLos numProcs ilos y info).2 with _ | e <;> rw [h] at hy
    · simp only [Option.isSome_none, Bool.false_eq_true, false_iff] at hy
      simp [ih (ilos + 1), List.exists_mem_cons_iff, hy]
    · simp only [Option.isSome_some, true_iff] at hy
      simp [List.exists_mem_cons_iff, hy]

/-- A fully keyed line-of-site entry built from raw data. -/
def losEntryOf (p : String × ℤ × Coordinates × Coordinates) : YLosEntry :=
  ⟨some p.1, some p.2.1, some p.2.2.1, some p.2.2.2⟩

/-- A fully keyed output-variable entry built from raw data. -/
def outputEntryOf (o : String × ℤ) : YOutputEntry := ⟨some o.1, some o.2⟩

/-- On a list of fully keyed entries the `ilos` loop never throws. -/
lemma parseLosLoop_success (numProcs : ℕ)
    (ls : List (String × ℤ × Coordinates × Coordinates)) :
    ∀ ilos info,
      (parseLosLoop numProcs ilos (ls.map losEntryOf) info).2 = none := by
  induction ls with
  | nil => intro ilos info; rfl
  | cons p rest ih => intro ilos info; exact ih (ilos + 1) _

/-- On fully keyed entries the `output_variables` loop succeeds and appends
the suffixed (name, size) pairs in order. -/
lemma parseOutputs_success (ovs : List (String × ℤ)) :
    ∀ acc, parseOutputs (ovs.map outputEntryOf) acc =
      (acc ++ ovs.map (fun o => (o.1 ++ "_probe", o.2)), none) := by
  induction ovs with
  | nil => intro acc; simp [parseOutputs]
  | cons o rest ih =>
    intro acc
    show parseOutputs (rest.map outputEntryOf) (acc ++ [(o.1 ++ "_probe", o.2)]) = _
    rw [ih]
    simp

/-! ## Claims about the loader (C5, C6, C8) -/

/-- Claim C5, counterexample: loading a single malformed specification entry
(no `name` key) throws, yet the module registry is left holding the
partially-configured spec object — `push_back` (lines 85-86) runs before any
parsing, so construction does not fail "before any registration of that
entry". -/
theorem c5_load_partial_counterexample :
    (load 1 ⟨10, [], []⟩ ⟨some (some [⟨none, .scalar "t", none, none⟩])⟩).2 =
      some "DataProbePostProcessing: no name provided" ∧
    (load 1 ⟨10, [], []⟩
        ⟨some (some [⟨none, .scalar "t", none, none⟩])⟩).1.dataProbeSpecInfo =
      [emptySpecInfo] ∧
    [emptySpecInfo] ≠ ([] : List DataProbeSpecInfo) :=
  ⟨rfl, rfl, List.cons_ne_nil _ _⟩

/-- Claim C5 (amended): the spec object is registered (pushed into the
module's registry) before parsing begins, so when a specification entry is
malformed the registry after the failure holds the previously loaded
entries — unchanged, not rolled back — followed by the partially-configured
entry for the failing spec; the remaining entries are not processed. -/
theorem c5_load_partial_registration (numProcs : ℕ)
    (registry : List DataProbeSpecInfo) (y : YSpecEntry)
    (rest : List YSpecEntry) (e : String)
    (he : (parseSpecEntry numProcs y).2 = some e) :
    loadLoop numProcs registry (y :: rest) =
      (registry ++ [(parseSpecEntry numProcs y).1], some e) := by
  simp only [loadLoop]
  rw [he]

/-- Witness for `c5_load_partial_registration`: one previously loaded spec,
then a nameless entry — the registry keeps the old spec and gains the
partial one. -/
theorem c5_load_partial_registration_witness :
    loadLoop 1 [emptySpecInfo] [⟨none, .scalar "t", none, none⟩] =
      ([emptySpecInfo] ++ [(parseSpecEntry 1 ⟨none, .scalar "t", none, none⟩).1],
        some "DataProbePostProcessing: no name provided") :=
  c5_load_partial_registration 1 [emptySpecInfo] ⟨none, .scalar "t", none, none⟩
    [] "DataProbePostProcessing: no name provided" rfl

/-- Claim C6: a line-of-site entry makes `load` throw exactly when one of
`name`, `number_of_points`, `tip_coordinates`, `tail_coordinates` is
missing (stated per entry and for the whole entry loop); a specification
entry carrying a name but no `line_of_site_specifications` sequence is
rejected with the "only supports line_of_site_specifications" error; and
`load` never touches the mesh state on any document — in particular a
missing name fails with the mesh untouched. -/
theorem c6_required_keys (numProcs ilos : ℕ) (info : DataProbeInfo)
    (y : YLosEntry) (ys : List YLosEntry) (nm : String) (ft : YFromTarget)
    (ov : Option (List YOutputEntry)) (m : Module) (doc : YNode) :
    ((parseLos numProcs ilos y info).2.isSome ↔
      (y.name = none ∨ y.numberOfPoints = none ∨
       y.tipCoordinates = none ∨ y.tailCoordinates = none)) ∧
    ((parseLosLoop numProcs ilos ys info).2.isSome ↔
      ∃ z ∈ ys, (z.name = none ∨ z.numberOfPoints = none ∨
        z.tipCoordinates = none ∨ z.tailCoordinates = none)) ∧
    (parseSpecEntry numProcs ⟨some nm, ft, none, ov⟩).2 =
      some "DataProbePostProcessing: only supports line_of_site_specifications" ∧
    (load numProcs m doc).1.meshParts = m.meshParts := by
  refine ⟨parseLos_isSome_iff numProcs ilos y info,
    parseLosLoop_isSome_iff numProcs ys ilos info, rfl, ?_⟩
  unfold load
  rcases doc with ⟨_ | _ | specs⟩ <;> rfl

/-- Witness for `c6_required_keys`: a line-of-site entry missing only its
`name` key makes the parser throw. -/
theorem c6_required_keys_witness :
    (parseLos 1 0 ⟨none, some 2, some ⟨0, 0, 1⟩, some ⟨0, 0, 0⟩⟩
        emptyProbeInfo).2.isSome :=
  (c6_required_keys 1 0 emptyProbeInfo
      ⟨none, some 2, some ⟨0, 0, 1⟩, some ⟨0, 0, 0⟩⟩ [] "n" (.scalar "t")
      none ⟨10, [], []⟩ ⟨none⟩).1.mpr (Or.inl rfl)

/-- Claim C8: loading a specification entry whose `K` line-of-site entries
all carry the four required keys succeeds and yields one probe block whose
parallel arrays — part name, owning rank, point count, tip, tail (and node
vector) — all have length `K`; each requested output variable `(name, size)`
becomes the field descriptor `(name ++ "_probe", size)`, in order; omitting
`output_variables` leaves the field list empty. -/
theorem c8_load_roundtrip (numProcs : ℕ) (nm : String) (ft : YFromTarget)
    (ls : List (String × ℤ × Coordinates × Coordinates))
    (ovs : List (String × ℤ)) :
    (parseSpecEntry numProcs
      ⟨some nm, ft, some (ls.map losEntryOf), some (ovs.map outputEntryOf)⟩).2 =
        none ∧
    (parseSpecEntry numProcs
      ⟨some nm, ft, some (ls.map losEntryOf),
        some (ovs.map outputEntryOf)⟩).1.dataProbeInfo.length = 1 ∧
    (∀ info ∈ (parseSpecEntry numProcs
        ⟨some nm, ft, some (ls.map losEntryOf),
          some (ovs.map outputEntryOf)⟩).1.dataProbeInfo,
      info.numProbes = ls.length ∧
      info.partName.length = ls.length ∧
      info.processorId.length = ls.length ∧
      info.numPoints.length = ls.length ∧
      info.tipCoordinates.length = ls.length ∧
      info.tailCoordinates.length = ls.length ∧
      info.nodeVector.length = ls.length ∧
      info.fieldInfo = ovs.map (fun o => (o.1 ++ "_probe", o.2))) ∧
    (∀ info ∈ (parseSpecEntry numProcs
        ⟨some nm, ft, some (ls.map losEntryOf), none⟩).1.dataProbeInfo,
      info.fieldInfo = []) := by
  have hsucc := parseLosLoop_success numProcs ls 0
    (resizedProbeInfo (ls.map losEntryOf).length)
  have hpres := parseLosLoop_preserves numProcs (ls.map losEntryOf) 0
    (resizedProbeInfo (ls.map losEntryOf).length)
  simp only [List.length_map] at hsucc hpres
  simp only [parseSpecEntry, List.length_map, hsucc, parseOutputs_success,
    List.nil_append]
  refine ⟨by trivial, by trivial, ?_, ?_⟩
  · intro info hinfo
    simp only [List.mem_singleton] at hinfo
    subst hinfo
    refine ⟨hpres.2.2.2.2.2.1,
      hpres.1.trans (by simp [resizedProbeInfo]),
      hpres.2.1.trans (by simp [resizedProbeInfo]),
      hpres.2.2.1.trans (by simp [resizedProbeInfo]),
      hpres.2.2.2.1.trans (by simp [resizedProbeInfo]),
      hpres.2.2.2.2.1.trans (by simp [resizedProbeInfo]),
      ?_, rfl⟩
    rw [hpres.2.2.2.2.2.2.2.1]
    simp [resizedProbeInfo]
  · intro info hinfo
    simp only [List.mem_singleton] at hinfo
    subst hinfo
    exact hpres.2.2.2.2.2.2.2.2

/-- Witness for `c8_load_roundtrip`: two keyed line-of-site entries and one
output variable — the probe block's part-name array has length 2. -/
theorem c8_load_roundtrip_witness :
    ∀ info ∈ (parseSpecEntry 1
        ⟨some "spec", .scalar "t",
         some ([("p0", 2, ⟨0, 0, 1⟩, ⟨0, 0, 0⟩),
                ("p1", 3, ⟨0, 1, 0⟩, ⟨0, 0, 0⟩)].map losEntryOf),
         some ([("velocity", 3)].map outputEntryOf)⟩).1.dataProbeInfo,
      info.partName.length =
        ([("p0", (2 : ℤ), (⟨0, 0, 1⟩ : Coordinates), (⟨0, 0, 0⟩ : Coordinates)),
          ("p1", 3, ⟨0, 1, 0⟩, ⟨0, 0, 0⟩)]).length :=
  fun info hinfo =>
    ((c8_load_roundtrip 1 "spec" (.scalar "t")
        [("p0", 2, ⟨0, 0, 1⟩, ⟨0, 0, 0⟩), ("p1", 3, ⟨0, 1, 0⟩, ⟨0, 0, 0⟩)]
        [("velocity", 3)]).2.2.1 info hinfo).2.1

end DataProbe
